import Mathlib

/-!
Shallow embedding of the acquisition/caching/job-coordination core of
`webapp.py` (repo-health-report): the status log (`update_status`), the staged
fetch pipeline (`fetch_repo_data`), the job registry / availability endpoint
(`APIDataAvailableHandler.availablitiy`) and the result endpoint
(`APIDataHandler.resp`), together with the on-disk path layout.

Modelling conventions:
  * Python dicts are association lists (`List (String × Json)`) with
    insertion-order-preserving key assignment (`setKey`).
  * The filesystem state relevant to one key is a record `FS`; a persisted
    JSON artifact either parses (`Artifact.good`) or raises on `json.load`
    (`Artifact.corrupt`).  Existence checks (`os.path.exists`) only look at
    the `Option` layer, exactly as the source only checks existence.
  * External collaborators (PyGithub, GitPython, git_analysis) are an
    environment `Env` of fallible producers returning `Except Err _`.
  * `datetime.datetime.utcnow()` is a logical clock: each observation yields
    the current `clock` value and advances it by one.
  * Raised Python exceptions are `Except.error` / an `Option Err` flag;
    `Err.jsonDecode` is the `json.JSONDecodeError` raised by `json.load`,
    `Err.indexError` the `IndexError` of `existing_status[-1]` on `[]`.
-/

namespace RepoHealth

/-- A minimal JSON value universe, enough for the payloads the core moves
around. -/
inductive Json where
  | str (s : String)
  | num (n : Int)
  | arr (elems : List Json)
  | obj (fields : List (String × Json))
  | null
deriving Inhabited

/-- Python exceptions that the modelled code can raise. -/
inductive Err where
  | exc (msg : String)
  | jsonDecode
  | indexError
deriving DecidableEq, Repr, Inhabited

/-- A Python dict lookup (`d[k]` / `k in d`), over an insertion-ordered
association list. -/
def dget {α : Type} : List (String × α) → String → Option α
  | [], _ => none
  | (k2, v) :: rest, k => if k2 = k then some v else dget rest k

/-- A Python dict assignment `d[k] = v`: replaces the value in place if the
key is present, otherwise appends the new binding. -/
def dset {α : Type} : List (String × α) → String → α → List (String × α)
  | [], k, v => [(k, v)]
  | (k2, v2) :: rest, k, v =>
    if k2 = k then (k, v) :: rest else (k2, v2) :: dset rest k v

/-- Shorthand for dicts of JSON values (the shape of `report`, `repo_data`
and the final payload). -/
abbrev Dict := List (String × Json)

/-- One entry of the status log: `{'start': ..., 'status': ..., 'end': ...}`.
`endTime` models the `'end'` key, absent (`none`) while the stage is open. -/
structure StatusEntry where
  start : Int
  status : String
  endTime : Option Int
deriving DecidableEq, Repr, Inhabited

/-- A persisted JSON artifact on disk: it either parses back (`good`) or
`json.load` raises (`corrupt`). -/
inductive Artifact where
  | good (val : Dict)
  | corrupt

/-- The on-disk state for one uuid: the status-log file
(`<uuid>.status.json`), the GitHub API artifact (`<uuid>.github.json`), the
commit-analysis artifact (`<uuid>_computed.json`) and the cached clone
directory (`ephemeral_storage/<uuid>`). -/
structure FS where
  statusFile : Option (List StatusEntry)
  githubCache : Option Artifact
  computedCache : Option Artifact
  mirror : Bool

/-- Instrumentation: which producers a pipeline run invoked, and with which
`since` argument the issues query was issued. -/
structure Calls where
  fetchedApi : Bool
  issuesSince : Option Int
  fetchedStargazers : Bool
  cloned : Bool
  fetchedRemotes : Bool
  analysed : Bool

/-- The fresh call log at the start of a run. -/
def noCalls : Calls := ⟨false, none, false, false, false, false⟩

/-- The state threaded through one pipeline run: the filesystem, the logical
clock backing `datetime.datetime.utcnow()`, and the producer-call log. -/
structure RunState where
  fs : FS
  clock : Int
  calls : Calls

/-- One tick of the `utcnow` clock. -/
def tick (s : RunState) : RunState := { s with clock := s.clock + 1 }

/-- `update_status(message=None, clear=False)` from `fetch_repo_data`
(webapp.py lines 64-82): if the status file is missing or `clear` is set it
starts from `[]`, otherwise it loads the file and stamps `'end'` on its last
entry (an `IndexError` if the stored list is empty); then, if a message is
given, it appends a fresh open entry; finally it rewrites the file.  The
source condition is `not os.path.exists(status_file) or clear`; checking
`clear` first is boolean-equivalent. On an `IndexError` nothing is written. -/
def update_status (message : Option String) (clear : Bool) (s : RunState) :
    Option Err × RunState :=
  let step1 : Except Err (List StatusEntry × RunState) :=
    if clear then .ok ([], s)
    else
      match s.fs.statusFile with
      | none => .ok ([], s)
      | some l =>
        match l.getLast? with
        | none => .error .indexError
        | some last =>
          .ok (l.dropLast ++ [{ last with endTime := some s.clock }], tick s)
  match step1 with
  | .error e => (some e, s)
  | .ok (existing, s1) =>
    match message with
    | none =>
      (none, { s1 with fs := { s1.fs with statusFile := some existing } })
    | some m =>
      let entry : StatusEntry := { start := s1.clock, status := m, endTime := none }
      let s2 := tick s1
      (none, { s2 with fs := { s2.fs with statusFile := some (existing ++ [entry]) } })

/-- The external collaborators `fetch_repo_data` calls, as fallible
producers: `g.get_repo(uuid)` (its `raw_data`), `repo.get_issues(state='all',
since=...)`, `repo.get_stargazers_with_dates()` (pairs of
`starred_at`/`login`), `remote.fetch()` over the cached clone,
`git.Repo.clone_from(...)`, and `git_analysis.commits(repo)`. -/
structure Env where
  get_repo : Except Err Json
  get_issues : Int → Except Err (List Json)
  get_stargazers_with_dates : Except Err (List (String × String))
  remote_fetch : Except Err Unit
  clone_from : Except Err Unit
  commits : Except Err Dict

/-- Seconds in the `datetime.timedelta(days=30)` window of the issues query. -/
def thirtyDays : Int := 30 * 86400

/-- The first cache block of `fetch_repo_data` (webapp.py lines 94-119): if
`<uuid>.github.json` exists it is logged as a cache load and `json.load`ed
(raising on corruption); otherwise the GitHub API report is produced stage by
stage (raw repo data, issues limited to 5 from the last 30 days, stargazers)
and then persisted. -/
def githubTier (env : Env) (raw : Json) (s : RunState) : Except Err Dict × RunState :=
  match s.fs.githubCache with
  | some art =>
    match update_status (some "Load GitHub API data from ephemeral cache") false s with
    | (some e, s) => (.error e, s)
    | (none, s) =>
      match art with
      | .corrupt => (.error .jsonDecode, s)
      | .good report => (.ok report, s)
  | none =>
    match update_status (some "Fetching GitHub API data") false s with
    | (some e, s) => (.error e, s)
    | (none, s) =>
      let s := { s with calls := { s.calls with fetchedApi := true } }
      let report : Dict := dset [] "repo" raw
      match update_status (some "Fetching GitHub issues data") false s with
      | (some e, s) => (.error e, s)
      | (none, s) =>
        let since := s.clock - thirtyDays
        let s := tick s
        let s := { s with calls := { s.calls with issuesSince := some since } }
        match env.get_issues since with
        | .error e => (.error e, s)
        | .ok issues =>
          let issues_raw := issues.take 5
          let report := dset report "issues" (.arr issues_raw)
          match update_status (some "Fetching GitHub stargazer data") false s with
          | (some e, s) => (.error e, s)
          | (none, s) =>
            let s := { s with calls := { s.calls with fetchedStargazers := true } }
            match env.get_stargazers_with_dates with
            | .error e => (.error e, s)
            | .ok sg =>
              let stargazer_data := sg.map fun p =>
                Json.obj [("starred_at", .str p.1), ("login", .str p.2)]
              let report := dset report "stargazers" (.arr stargazer_data)
              let s := { s with fs := { s.fs with githubCache := some (.good report) } }
              (.ok report, s)

/-- The shared tail of the computed-cache miss path (webapp.py lines
133-136): run `git_analysis.commits` and persist `<uuid>_computed.json`. -/
def analyseStage (env : Env) (s : RunState) : Except Err Dict × RunState :=
  match update_status (some "Analysing commits") false s with
  | (some e, s) => (.error e, s)
  | (none, s) =>
    let s := { s with calls := { s.calls with analysed := true } }
    match env.commits with
    | .error e => (.error e, s)
    | .ok d => (.ok d, { s with fs := { s.fs with computedCache := some (.good d) } })

/-- The second cache block of `fetch_repo_data` (webapp.py lines 121-140): if
`<uuid>_computed.json` is absent, obtain or update the local clone (update
via `remote.fetch()` when the clone directory exists, otherwise
`git.Repo.clone_from`) and analyse its commits; if the artifact exists it is
logged as a cache load and `json.load`ed (raising on corruption). -/
def computedTier (env : Env) (s : RunState) : Except Err Dict × RunState :=
  match s.fs.computedCache with
  | none =>
    if s.fs.mirror then
      match update_status (some "Fetching remotes from cached clone") false s with
      | (some e, s) => (.error e, s)
      | (none, s) =>
        let s := { s with calls := { s.calls with fetchedRemotes := true } }
        match env.remote_fetch with
        | .error e => (.error e, s)
        | .ok _ => analyseStage env s
    else
      match update_status (some "Cloning repo") false s with
      | (some e, s) => (.error e, s)
      | (none, s) =>
        let s := { s with calls := { s.calls with cloned := true } }
        match env.clone_from with
        | .error e => (.error e, s)
        | .ok _ => analyseStage env { s with fs := { s.fs with mirror := true } }
  | some art =>
    match update_status (some "Load commit from ephemeral cache") false s with
    | (some e, s) => (.error e, s)
    | (none, s) =>
      match art with
      | .corrupt => (.error .jsonDecode, s)
      | .good d => (.ok d, s)

/-- `fetch_repo_data(uuid, token)` (webapp.py lines 62-146).  The
`os.makedirs` call is a no-op in this model.  The pipeline: reset the status
log, resolve the repo (`g.get_repo`), run the GitHub cache tier, run the
computed cache tier, close the status log, and merge the GitHub report into
the analysis output under `'github'`. -/
def fetch_repo_data (env : Env) (s : RunState) : Except Err Dict × RunState :=
  match update_status (some "Initial validation of repo") true s with
  | (some e, s) => (.error e, s)
  | (none, s) =>
    match env.get_repo with
    | .error e => (.error e, s)
    | .ok raw =>
      match githubTier env raw s with
      | (.error e, s) => (.error e, s)
      | (.ok report, s) =>
        match computedTier env s with
        | (.error e, s) => (.error e, s)
        | (.ok repo_data, s) =>
          match update_status none false s with
          | (some e, s) => (.error e, s)
          | (none, s) => (.ok (dset repo_data "github" (Json.obj report)), s)

/-! ### Persisted path layout

The paths `fetch_repo_data` builds with `os.path.join('ephemeral_storage',
...)` (webapp.py lines 65, 84, 121, 123); the uuid is used verbatim. -/

/-- Whether a POSIX path component is absolute: its first character is the
separator (Python's `b.startswith('/')` check inside `os.path.join`). -/
def isAbs (b : String) : Bool := b.data.head? == some '/'

/-- `os.path.join(a, b)` for POSIX paths: an absolute second component
discards the first (`os.path.join('ephemeral_storage', '/x') = '/x'`);
otherwise the separator is inserted.  At every call site the first argument
is the literal `'ephemeral_storage'` (non-empty, no trailing separator), so
no other `os.path.join` case arises. -/
def pathJoin (a b : String) : String :=
  if isAbs b then b else a ++ "/" ++ b

/-- `os.path.join('ephemeral_storage', uuid + '.status.json')`. -/
def status_file (uuid : String) : String :=
  pathJoin "ephemeral_storage" (uuid ++ ".status.json")

/-- `os.path.join('ephemeral_storage', uuid + '.github.json')`. -/
def github_cache_path (uuid : String) : String :=
  pathJoin "ephemeral_storage" (uuid ++ ".github.json")

/-- `os.path.join('ephemeral_storage', uuid + '_computed.json')`. -/
def computed_cache_path (uuid : String) : String :=
  pathJoin "ephemeral_storage" (uuid ++ "_computed.json")

/-- `os.path.join('ephemeral_storage', uuid)`, the clone target. -/
def mirror_path (uuid : String) : String :=
  pathJoin "ephemeral_storage" uuid

/-! ### Job registry and endpoints -/

/-- The observable state of a `concurrent.futures` future in the datastore:
still running, completed with a payload, or completed with a raised
exception. -/
inductive FutureState where
  | running
  | doneOk (payload : Dict)
  | doneErr (e : Err)

/-- A datastore entry: the submitted future together with the
`_start_time` stamped on it at submission. -/
structure Future where
  startTime : Int
  state : FutureState

/-- `future.done()`. -/
def Future.done (f : Future) : Bool :=
  match f.state with
  | .running => false
  | _ => true

/-- The process-wide registry: `datastore` maps repo uuids to futures. -/
structure Server where
  datastore : List (String × Future)

/-- A record of one `executor.submit(fetch_repo_data, uuid, token)` call. -/
structure Submission where
  uuid : String
  token : Option String
deriving DecidableEq

/-- The body of a response dict built by the handlers.  `message` keeps the
literal strings of the source; the `'Job is still running and started
{pretty_timedelta(future._start_time, utcnow)}.'` interpolation is abstracted
as a constructor carrying the two timestamps it formats.  `tb` records
whether the dict also carries a `'traceback'` key, and `statusInfo` the
`'status_info'` key when present. -/
inductive RespMsg where
  | text (s : String)
  | stillRunningSince (startTime now : Int)
deriving DecidableEq

/-- A response dict `{'status': ..., 'message': ..., [...]}`. -/
structure Response where
  status : Nat
  message : RespMsg
  statusInfo : Option Json
  tb : Bool

/-- The outcome of `APIDataAvailableHandler.availablitiy`: the response
value, the datastore afterwards, and the `executor.submit` call if one was
made. -/
structure AvailResult where
  response : Response
  server : Server
  submitted : Option Submission

/-- `APIDataAvailableHandler.availablitiy(uuid, token)` (webapp.py lines
312-383).  The `if False:` token-validation block is dead code and omitted.
If the uuid is not in the datastore, the fetch pipeline is submitted to the
executor, the future (stamped with `_start_time = utcnow`) is stored, and a
202 'submitted' response with an empty `status_info` list is returned.
Otherwise the stored future is consulted: its status file is read (`{}` when
missing), and a 200 'ready' or 202 'still running' response is returned.
`sj` is the parsed content of `<uuid>.status.json`, `now` the current
`utcnow` value. -/
def availablitiy (uuid : String) (token : Option String) (st : Server)
    (sj : Option Json) (now : Int) : AvailResult :=
  match dget st.datastore uuid with
  | none =>
    { response := { status := 202, message := .text "Job submitted and is processing.",
                    statusInfo := some (.arr []), tb := false }
      server := { datastore := dset st.datastore uuid { startTime := now, state := .running } }
      submitted := some { uuid := uuid, token := token } }
  | some future =>
    let status : Json :=
      match sj with
      | none => .obj []
      | some j => j
    if future.done then
      { response := { status := 200, message := .text "ready",
                      statusInfo := some status, tb := false }
        server := st, submitted := none }
    else
      { response := { status := 202,
                      message := .stillRunningSince future.startTime now,
                      statusInfo := some status, tb := false }
        server := st, submitted := none }

/-- What `APIDataHandler.resp` sends to the client, when it sends anything:
either a JSON-encoded response dict (after `set_status`) or the
`{'status': 200, 'content': future.result()}` payload. -/
inductive RespAction where
  | finishJson (r : Response)
  | finishContent (payload : Dict)

/-- The outcome of `APIDataHandler.resp`: `wrote` is what reached the client
via `self.finish`, `ret` is the value `resp` returned to its (ignoring)
caller. -/
structure RespResult where
  wrote : Option RespAction
  ret : Option Response
  server : Server
  submitted : Option Submission

/-- `str(err)` for the modelled exceptions. -/
def errStr : Err → String
  | .exc m => m
  | .jsonDecode => "Expecting value: line 1 column 1 (char 0)"
  | .indexError => "list index out of range"

/-- `APIDataHandler.resp(uuid, token)` (webapp.py lines 396-412): it calls
`availablitiy`; a non-200 status is finished to the client as-is; on 200 it
retrieves `future.result()`, finishing the payload on success — but on an
exception it only builds the `{'status': 500, 'message': ..., 'traceback':
...}` dict and `return`s it, without `self.finish`, so nothing is written.
The two `match` fallbacks below are unreachable: a 200 status implies the
future exists and is done. -/
def resp (uuid : String) (token : Option String) (st : Server)
    (sj : Option Json) (now : Int) : RespResult :=
  let a := availablitiy uuid token st sj now
  if a.response.status ≠ 200 then
    { wrote := some (.finishJson a.response), ret := none,
      server := a.server, submitted := a.submitted }
  else
    match dget a.server.datastore uuid with
    | none =>
      { wrote := none, ret := none, server := a.server, submitted := a.submitted }
    | some future =>
      match future.state with
      | .running =>
        { wrote := none, ret := none, server := a.server, submitted := a.submitted }
      | .doneOk payload =>
        { wrote := some (.finishContent payload), ret := none,
          server := a.server, submitted := a.submitted }
      | .doneErr e =>
        { wrote := none,
          ret := some { status := 500, message := .text (errStr e),
                        statusInfo := none, tb := true },
          server := a.server, submitted := a.submitted }

/-! ### Derived notions used by the verification -/

/-- One availability request: its uuid, token, the parsed status file at the
time of the request, and the current `utcnow`. -/
structure ACall where
  uuid : String
  token : Option String
  sj : Option Json
  now : Int

/-- Replay a sequence of availability requests against the registry,
collecting every `executor.submit` call they dispatch. -/
def runSubs (st : Server) : List ACall → List Submission
  | [] => []
  | c :: cs =>
    (match (availablitiy c.uuid c.token st c.sj c.now).submitted with
     | none => []
     | some sub => [sub])
      ++ runSubs (availablitiy c.uuid c.token st c.sj c.now).server cs

/-- How many of the recorded submissions were dispatched for `k`. -/
def countFor (k : String) (subs : List Submission) : Nat :=
  (subs.filter fun sub => sub.uuid = k).length

/-- The C6 invariant on a status sequence: every entry except possibly the
last is closed — equivalently, at most one entry is open and only the last
may be. -/
def openOnlyLast (l : List StatusEntry) : Bool :=
  l.dropLast.all fun e => e.endTime.isSome

/-- The invariant lifted to the persisted file (a missing file holds it
vacuously). -/
def invStatusFile : Option (List StatusEntry) → Bool
  | none => true
  | some l => openOnlyLast l

/-- The status sequence actually persisted after an `update_status` call: the
rewritten file on success, the untouched file when the call raised. -/
def persistedAfter (message : Option String) (clear : Bool) (s : RunState) :
    Option (List StatusEntry) :=
  (update_status message clear s).2.fs.statusFile

/-- The stage names recorded in the status log of a run state, in order. -/
def logOf (s : RunState) : List String :=
  (s.fs.statusFile.getD []).map (·.status)

/-- Whether a pipeline result is a success. -/
def okB {α : Type} : Except Err α → Bool
  | .ok _ => true
  | .error _ => false

/-- The payload of a successful pipeline result (`[]` for a failed one). -/
def payloadOf : Except Err Dict → Dict
  | .ok p => p
  | .error _ => []

/-- Boolean strict ascent of a list of naturals. -/
def ascending : List Nat → Bool
  | [] => true
  | [_] => true
  | a :: b :: rest => decide (a < b) && ascending (b :: rest)

/-- The position of each logged stage name in the pipeline's fixed stage
order: resolve-identity (0), fetch-remote-metadata (1), fetch-remote-issues
(2), fetch-remote-social-signal (3), obtain-or-update-local-mirror (4),
compute-derived-analysis (5); a cache load sits at the position of the first
stage it replaces. -/
def stagePos (m : String) : Nat :=
  if m = "Initial validation of repo" then 0
  else if m = "Fetching GitHub API data" then 1
  else if m = "Load GitHub API data from ephemeral cache" then 1
  else if m = "Fetching GitHub issues data" then 2
  else if m = "Fetching GitHub stargazer data" then 3
  else if m = "Cloning repo" then 4
  else if m = "Fetching remotes from cached clone" then 4
  else if m = "Analysing commits" then 5
  else if m = "Load commit from ephemeral cache" then 5
  else 6

/-- The status log a run with the given initial filesystem produces when no
producer fails and no reached artifact is corrupt (read off webapp.py lines
90-143). -/
def expectedLog (fs : FS) : List String :=
  ["Initial validation of repo"]
    ++ (if fs.githubCache.isSome then ["Load GitHub API data from ephemeral cache"]
        else ["Fetching GitHub API data", "Fetching GitHub issues data",
              "Fetching GitHub stargazer data"])
    ++ (if fs.computedCache.isSome then ["Load commit from ephemeral cache"]
        else (if fs.mirror then ["Fetching remotes from cached clone"]
              else ["Cloning repo"]) ++ ["Analysing commits"])

/-- An environment in which every producer succeeds, built from the values
the collaborators would return. -/
def okEnv (raw : Json) (issues : Int → List Json) (sg : List (String × String))
    (d : Dict) : Env :=
  { get_repo := .ok raw
    get_issues := fun t => .ok (issues t)
    get_stargazers_with_dates := .ok sg
    remote_fetch := .ok ()
    clone_from := .ok ()
    commits := .ok d }

/-- Well-formedness of a stored GitHub artifact: it is either absent or
parses to a report carrying the three sections a fresh production writes
(webapp.py lines 100-116). -/
def ghWF : Option Artifact → Prop
  | none => True
  | some (.good r) =>
    (dget r "repo").isSome = true ∧ (dget r "issues").isSome = true ∧
      (dget r "stargazers").isSome = true
  | some .corrupt => False

/-! ### Concrete sample data for witnesses and counterexamples -/

/-- A sample raw repo document. -/
def rawSample : Json := .obj [("full_name", .str "acme/widgets")]

/-- A sample fully-succeeding environment. -/
def envOK : Env :=
  okEnv rawSample (fun _ => [.num 1, .num 2]) [("2016-01-01", "alice")]
    [("total_commits", .num 7)]

/-- A run state with nothing persisted yet. -/
def s0nil : RunState := ⟨⟨none, none, none, false⟩, 0, noCalls⟩

/-- A run state whose GitHub artifact exists on disk but does not parse. -/
def s0corrupt : RunState := ⟨⟨none, some .corrupt, none, false⟩, 0, noCalls⟩

/-- A registry holding one future that completed with a raised exception. -/
def stFailed : Server := ⟨[("acme/widgets", ⟨0, .doneErr (.exc "boom")⟩)]⟩

/-- A registry holding one still-running future. -/
def stRunning : Server := ⟨[("acme/widgets", ⟨0, .running⟩)]⟩

/-! ### Dictionary lemmas -/

theorem dget_dset {α : Type} (ds : List (String × α)) (k k2 : String) (v : α) :
    dget (dset ds k v) k2 = if k = k2 then some v else dget ds k2 := by
  induction ds with
  | nil => simp [dget, dset]
  | cons p rest ih =>
    obtain ⟨k3, v3⟩ := p
    by_cases h3 : k3 = k
    · subst h3
      by_cases h2 : k3 = k2 <;> simp [dget, dset, h2]
    · by_cases h2 : k3 = k2
      · subst h2
        have hk : ¬ k = k3 := fun h => h3 h.symm
        simp [dget, dset, h3, hk]
      · simp [dget, dset, h3, h2, ih]

theorem dget_dset_self {α : Type} (ds : List (String × α)) (k : String) (v : α) :
    dget (dset ds k v) k = some v := by
  simp [dget_dset]

theorem dget_dset_ne {α : Type} (ds : List (String × α)) (k k2 : String) (v : α)
    (h : k ≠ k2) : dget (dset ds k v) k2 = dget ds k2 := by
  simp [dget_dset, h]

/-! ### C8: persisted path layout -/

/-- C8 counterexample: the key is NOT sanitized into a single path component
and the per-key state is NOT namespaced under a per-key root.  For the key
`"a/b"` the status file sits two directory levels below the storage root
(the raw `/` of the key becomes a path separator), the artifacts of the
distinct keys `"a/b"` and `"a/c"` live in the same directory
`ephemeral_storage/a`, and the computed artifact of key `"a/b"` occupies the
very same path as the clone directory of the distinct key
`"a/b_computed.json"`. -/
theorem persisted_paths_not_per_key_namespaced :
    computed_cache_path "a/b" = mirror_path "a/b_computed.json"
    ∧ ("a/b" : String) ≠ "a/b_computed.json"
    ∧ status_file "a/b" = pathJoin (pathJoin "ephemeral_storage" "a") "b.status.json"
    ∧ github_cache_path "a/b" = pathJoin (pathJoin "ephemeral_storage" "a") "b.github.json"
    ∧ github_cache_path "a/c" = pathJoin (pathJoin "ephemeral_storage" "a") "c.github.json"
    ∧ ("a/b" : String) ≠ "a/c" :=
  ⟨rfl, by decide, rfl, rfl, rfl, by decide⟩

/-- Appending a non-absolute suffix does not change whether a component is
absolute. -/
theorem isAbs_append (u s : String) (hs : isAbs s = false) :
    isAbs (u ++ s) = isAbs u := by
  unfold isAbs at hs ⊢
  rw [String.data_append]
  cases hu : u.data with
  | nil => simpa [hu] using hs
  | cons c cs => simp [hu]

/-- C8 (amended): for a key not beginning with `/`, all persisted state is
stored under the shared `ephemeral_storage` root with the raw, unsanitized
key embedded in the path (so a key containing `/` spans two path
components), the per-key files distinguished only by filename suffixes —
there is no per-key root directory.  A key beginning with `/` is treated by
`os.path.join` as an absolute path and escapes the storage root entirely:
`'ephemeral_storage'` is discarded and the state lands at the key's own
path. -/
theorem persisted_paths_shared_root (uuid : String) :
    (isAbs uuid = false →
      status_file uuid = "ephemeral_storage/" ++ uuid ++ ".status.json"
      ∧ github_cache_path uuid = "ephemeral_storage/" ++ uuid ++ ".github.json"
      ∧ computed_cache_path uuid = "ephemeral_storage/" ++ uuid ++ "_computed.json"
      ∧ mirror_path uuid = "ephemeral_storage/" ++ uuid)
    ∧ (isAbs uuid = true →
      status_file uuid = uuid ++ ".status.json"
      ∧ github_cache_path uuid = uuid ++ ".github.json"
      ∧ computed_cache_path uuid = uuid ++ "_computed.json"
      ∧ mirror_path uuid = uuid) := by
  have e1 := isAbs_append uuid ".status.json" rfl
  have e2 := isAbs_append uuid ".github.json" rfl
  have e3 := isAbs_append uuid "_computed.json" rfl
  constructor
  · intro h
    refine ⟨?_, ?_, ?_, ?_⟩ <;>
      simp [status_file, github_cache_path, computed_cache_path, mirror_path,
        pathJoin, e1, e2, e3, h, String.append_assoc]
  · intro h
    refine ⟨?_, ?_, ?_, ?_⟩ <;>
      simp [status_file, github_cache_path, computed_cache_path, mirror_path,
        pathJoin, e1, e2, e3, h]

/-- Witness for the amended C8 theorem: a relative key sits under the shared
root, a key beginning with `/` escapes it. -/
theorem persisted_paths_shared_root_witness :
    (status_file "acme/widgets"
        = "ephemeral_storage/" ++ "acme/widgets" ++ ".status.json"
      ∧ github_cache_path "acme/widgets"
        = "ephemeral_storage/" ++ "acme/widgets" ++ ".github.json"
      ∧ computed_cache_path "acme/widgets"
        = "ephemeral_storage/" ++ "acme/widgets" ++ "_computed.json"
      ∧ mirror_path "acme/widgets" = "ephemeral_storage/" ++ "acme/widgets")
    ∧ (status_file "/tmp/x" = "/tmp/x" ++ ".status.json"
      ∧ github_cache_path "/tmp/x" = "/tmp/x" ++ ".github.json"
      ∧ computed_cache_path "/tmp/x" = "/tmp/x" ++ "_computed.json"
      ∧ mirror_path "/tmp/x" = "/tmp/x") :=
  ⟨(persisted_paths_shared_root "acme/widgets").1 rfl,
   (persisted_paths_shared_root "/tmp/x").2 rfl⟩

/-! ### C4: a status query for an unknown key -/

/-- C4 counterexample: querying availability for a key that has never been
submitted is NOT a pure read — it dispatches the pipeline to the executor
and stores a new future in the datastore. -/
theorem availablitiy_unknown_key_submits :
    (availablitiy "acme/widgets" (some "tok") ⟨[]⟩ none 0).submitted
        = some ⟨"acme/widgets", some "tok"⟩
    ∧ (availablitiy "acme/widgets" (some "tok") ⟨[]⟩ none 0).server.datastore
        = [("acme/widgets", ⟨0, .running⟩)] :=
  ⟨rfl, rfl⟩

/-- C4 (amended): a status query for a key that has never been submitted
returns a 202 'submitted' response with an empty stage sequence and never
fails, but it is not side-effect free: the availability endpoint doubles as
the submission endpoint, so it dispatches exactly one pipeline execution for
the key and stores the new future in the registry. -/
theorem availablitiy_unknown_key (k : String) (tok : Option String) (st : Server)
    (sj : Option Json) (now : Int) (h : dget st.datastore k = none) :
    (availablitiy k tok st sj now).response.status = 202
    ∧ (availablitiy k tok st sj now).response.message
        = .text "Job submitted and is processing."
    ∧ (availablitiy k tok st sj now).response.statusInfo = some (.arr [])
    ∧ (availablitiy k tok st sj now).submitted = some ⟨k, tok⟩
    ∧ (availablitiy k tok st sj now).server.datastore
        = dset st.datastore k ⟨now, .running⟩ := by
  simp [availablitiy, h]

/-- Witness for the amended C4 theorem at a concrete unknown key. -/
theorem availablitiy_unknown_key_witness :
    (availablitiy "acme/widgets" none (⟨[]⟩ : Server) none 3).response.status = 202
    ∧ (availablitiy "acme/widgets" none (⟨[]⟩ : Server) none 3).response.message
        = .text "Job submitted and is processing."
    ∧ (availablitiy "acme/widgets" none (⟨[]⟩ : Server) none 3).response.statusInfo
        = some (.arr [])
    ∧ (availablitiy "acme/widgets" none (⟨[]⟩ : Server) none 3).submitted
        = some ⟨"acme/widgets", none⟩
    ∧ (availablitiy "acme/widgets" none (⟨[]⟩ : Server) none 3).server.datastore
        = dset [] "acme/widgets" ⟨3, .running⟩ :=
  availablitiy_unknown_key "acme/widgets" none ⟨[]⟩ none 3 rfl

/-! ### C5: surfacing a stored error from the result endpoint -/

/-- C5 (code bug): for a key whose job terminated with a raised exception,
`APIDataHandler.resp` builds the structured `{'status': 500, 'message':
str(err), 'traceback': ...}` response but only `return`s it — it never calls
`self.finish`, so nothing is written to the client (`wrote = none`); the
callers `get`/`post` discard the returned dict.  The stored error's message
and traceback therefore never reach the caller, and repeated queries behave
identically. -/
theorem resp_swallows_stored_error :
    (resp "acme/widgets" none stFailed none 7).wrote = none
    ∧ (resp "acme/widgets" none stFailed none 7).ret
        = some ⟨500, .text "boom", none, true⟩
    ∧ (resp "acme/widgets" none stFailed none 7).server = stFailed
    ∧ (resp "acme/widgets" none stFailed none 7).submitted = none
    ∧ resp "acme/widgets" none stFailed none 8 = resp "acme/widgets" none stFailed none 7 :=
  ⟨rfl, rfl, rfl, rfl, rfl⟩

/-! ### C6: the status-log invariant -/

/-- C6: after any call to `update_status` — closing the previous entry
and/or appending a fresh open one, or resetting — the persisted status
sequence contains at most one entry without an end timestamp, and such an
entry can only be the last one (`openOnlyLast`).  When the call raises
(`IndexError` on an empty stored list) the file is left untouched and the
invariant is inherited. -/
theorem update_status_preserves_openOnlyLast (message : Option String)
    (clear : Bool) (s : RunState)
    (h : invStatusFile s.fs.statusFile = true) :
    invStatusFile (persistedAfter message clear s) = true := by
  unfold persistedAfter update_status
  by_cases hc : clear
  · cases message <;> simp [hc, invStatusFile, openOnlyLast]
  · cases hf : s.fs.statusFile with
    | none => cases message <;> simp [hc, hf, invStatusFile, openOnlyLast]
    | some l =>
      cases hl : l.getLast? with
      | none =>
        have hnil : l = [] := List.getLast?_eq_none_iff.mp hl
        subst hnil
        simp [hc, hf, hl, invStatusFile, openOnlyLast]
      | some last =>
        rw [hf] at h
        simp only [invStatusFile, openOnlyLast] at h
        cases message <;>
          simp [hc, hf, hl, invStatusFile, openOnlyLast, List.dropLast_concat,
            List.all_append, h]

/-- Witness for C6: one concrete `update_status` call that closes the open
entry and appends a new one, preserving the invariant. -/
theorem update_status_preserves_openOnlyLast_witness :
    invStatusFile (persistedAfter (some "Fetching GitHub API data") false
      ⟨⟨some [⟨0, "Initial validation of repo", none⟩], none, none, false⟩, 1, noCalls⟩)
      = true :=
  update_status_preserves_openOnlyLast (some "Fetching GitHub API data") false
    ⟨⟨some [⟨0, "Initial validation of repo", none⟩], none, none, false⟩, 1, noCalls⟩ rfl

/-! ### C1: the registry dispatches at most one execution per key -/

/-- What `availablitiy` submits: nothing when its key is present, the
pipeline invocation for its own key and token otherwise. -/
theorem availablitiy_submitted_spec (u : String) (tok : Option String) (st : Server)
    (sj : Option Json) (now : Int) :
    (availablitiy u tok st sj now).submitted
      = if (dget st.datastore u).isSome then none else some ⟨u, tok⟩ := by
  unfold availablitiy
  cases hd : dget st.datastore u with
  | none => simp
  | some fut => by_cases hdone : fut.done <;> simp [hdone]

/-- What `availablitiy` does to the datastore: untouched when its key is
present, one new running future otherwise. -/
theorem availablitiy_server_spec (u : String) (tok : Option String) (st : Server)
    (sj : Option Json) (now : Int) :
    (availablitiy u tok st sj now).server
      = if (dget st.datastore u).isSome then st
        else ⟨dset st.datastore u ⟨now, .running⟩⟩ := by
  unfold availablitiy
  cases hd : dget st.datastore u with
  | none => simp
  | some fut => by_cases hdone : fut.done <;> simp [hdone]

/-- A key present in the datastore stays present across any availability
request. -/
theorem dget_isSome_after_availablitiy (c : ACall) (st : Server) (k : String)
    (h : (dget st.datastore k).isSome = true) :
    (dget (availablitiy c.uuid c.token st c.sj c.now).server.datastore k).isSome
      = true := by
  rw [availablitiy_server_spec]
  by_cases hd : (dget st.datastore c.uuid).isSome
  · simpa [hd] using h
  · by_cases hk : c.uuid = k
    · rw [hk] at hd
      exact absurd h hd
    · simp [hd, dget_dset, hk, h]

/-- No submission for `k` is ever dispatched by a call sequence once `k` is
in the datastore. -/
theorem countFor_runSubs_of_mem (k : String) :
    ∀ (cs : List ACall) (st : Server),
      (dget st.datastore k).isSome = true → countFor k (runSubs st cs) = 0 := by
  intro cs
  induction cs with
  | nil => intro st _; simp [runSubs, countFor]
  | cons c cs ih =>
    intro st h
    have hmono := dget_isSome_after_availablitiy c st k h
    have hsub := availablitiy_submitted_spec c.uuid c.token st c.sj c.now
    unfold runSubs
    cases hs : (availablitiy c.uuid c.token st c.sj c.now).submitted with
    | none =>
      simpa [countFor] using ih _ hmono
    | some sub =>
      rw [hs] at hsub
      by_cases hd : (dget st.datastore c.uuid).isSome
      · simp [hd] at hsub
      · simp [hd] at hsub
        have hne : sub.uuid ≠ k := by
          rw [hsub]
          intro hk
          simp only at hk
          rw [hk] at hd
          exact hd h
        have hrest := ih _ hmono
        simpa [countFor, hne] using hrest

/-- C1: the registry dispatches at most one pipeline execution per key for
its lifetime.  If `k` is already in the datastore, any availability call for
`k` submits nothing, leaves the registry untouched, returns the status of
the existing future (200 when done, 202 when still running), and its result
does not depend on the credential offered; moreover, over any sequence of
availability requests against any registry, at most one submission is ever
dispatched for a key — none at all if the key is already present. -/
theorem availablitiy_at_most_one_submission (st : Server) (k : String) (f : Future)
    (hmem : dget st.datastore k = some f) :
    (∀ tok sj now,
        (availablitiy k tok st sj now).submitted = none
        ∧ (availablitiy k tok st sj now).server = st
        ∧ (availablitiy k tok st sj now).response.status
            = if f.done then 200 else 202)
    ∧ (∀ tok1 tok2 sj now,
        availablitiy k tok1 st sj now = availablitiy k tok2 st sj now)
    ∧ ∀ (st2 : Server) (cs : List ACall) (k2 : String),
        countFor k2 (runSubs st2 cs)
          ≤ if (dget st2.datastore k2).isSome then 0 else 1 := by
  refine ⟨?_, ?_, ?_⟩
  · intro tok sj now
    unfold availablitiy
    rw [hmem]
    by_cases hdone : f.done <;> simp [hdone]
  · intro tok1 tok2 sj now
    unfold availablitiy
    rw [hmem]
  · intro st2 cs
    induction cs generalizing st2 with
    | nil => intro k2; simp [runSubs, countFor]
    | cons c cs ih =>
      intro k2
      have hsub := availablitiy_submitted_spec c.uuid c.token st2 c.sj c.now
      have hserver := availablitiy_server_spec c.uuid c.token st2 c.sj c.now
      unfold runSubs
      cases hs : (availablitiy c.uuid c.token st2 c.sj c.now).submitted with
      | none =>
        rw [hs] at hsub
        by_cases hd : (dget st2.datastore c.uuid).isSome
        · rw [if_pos hd] at hserver
          simp only [List.nil_append]
          rw [hserver]
          exact ih st2 k2
        · simp [hd] at hsub
      | some sub =>
        rw [hs] at hsub
        by_cases hd : (dget st2.datastore c.uuid).isSome
        · simp [hd] at hsub
        · simp [hd] at hsub
          rw [if_neg hd] at hserver
          have hmem2 : (dget (availablitiy c.uuid c.token st2 c.sj c.now).server.datastore
              c.uuid).isSome = true := by
            rw [hserver]
            simp [dget_dset]
          by_cases hk : c.uuid = k2
          · rw [hk] at hmem2 hsub hd
            rw [hk]
            have hzero := countFor_runSubs_of_mem k2 cs _ hmem2
            have hsubuuid : sub.uuid = k2 := by rw [hsub]
            have hdk : (dget st2.datastore k2).isSome = false := by simpa using hd
            simp only [hdk, if_false, Bool.false_eq_true]
            simpa [countFor, hsubuuid] using hzero
          · have hne : sub.uuid ≠ k2 := by rw [hsub]; simpa using hk
            have hpres : (dget (availablitiy c.uuid c.token st2 c.sj c.now).server.datastore
                k2) = dget st2.datastore k2 := by
              rw [hserver]
              simp [dget_dset, hk]
            have hrec := ih (availablitiy c.uuid c.token st2 c.sj c.now).server k2
            rw [hpres] at hrec
            simpa [countFor, hne] using hrec

/-- Witness for C1 at a registry already holding a running job for the key:
a second availability call with a different credential submits nothing,
leaves the registry unchanged and reports 202. -/
theorem availablitiy_at_most_one_submission_witness :
    (availablitiy "acme/widgets" (some "other-token") stRunning none 5).submitted = none
    ∧ (availablitiy "acme/widgets" (some "other-token") stRunning none 5).server
        = stRunning
    ∧ (availablitiy "acme/widgets" (some "other-token") stRunning none 5).response.status
        = 202 :=
  (availablitiy_at_most_one_submission stRunning "acme/widgets" ⟨0, .running⟩ rfl).1
    (some "other-token") none 5

/-! ### C2: a corrupt persisted artifact is not treated as a cache miss -/

/-- C2 counterexample: with the GitHub artifact present but unparseable, the
pipeline surfaces the `json.load` parse error instead of re-producing the
tier: the run fails with `jsonDecode`, no producer is invoked, and the
corrupt file is left in place. -/
theorem corrupt_artifact_fails_pipeline :
    (fetch_repo_data envOK s0corrupt).1 = .error .jsonDecode
    ∧ (fetch_repo_data envOK s0corrupt).2.calls.fetchedApi = false
    ∧ (fetch_repo_data envOK s0corrupt).2.calls.issuesSince = none
    ∧ (fetch_repo_data envOK s0corrupt).2.fs.githubCache = some .corrupt :=
  ⟨rfl, rfl, rfl, rfl⟩

/-- C2 (amended): the cache check is an existence check only.  When the
persisted GitHub artifact exists but cannot be parsed, the load path is taken
anyway: the parse error propagates and fails the run, the tier is not
re-produced (no producer call is recorded), and the corrupt artifact remains
on disk unchanged. -/
theorem corrupt_artifact_not_reproduced (env : Env) (s : RunState) (raw : Json)
    (hcache : s.fs.githubCache = some .corrupt)
    (hrepo : env.get_repo = .ok raw) :
    (fetch_repo_data env s).1 = .error .jsonDecode
    ∧ (fetch_repo_data env s).2.fs.githubCache = some .corrupt
    ∧ (fetch_repo_data env s).2.fs.computedCache = s.fs.computedCache
    ∧ (fetch_repo_data env s).2.calls = s.calls := by
  simp [fetch_repo_data, githubTier, update_status, tick, hcache, hrepo]

/-- Witness for the amended C2 theorem on a concrete corrupt cache. -/
theorem corrupt_artifact_not_reproduced_witness :
    (fetch_repo_data envOK s0corrupt).1 = .error .jsonDecode
    ∧ (fetch_repo_data envOK s0corrupt).2.fs.githubCache = some .corrupt
    ∧ (fetch_repo_data envOK s0corrupt).2.fs.computedCache = s0corrupt.fs.computedCache
    ∧ (fetch_repo_data envOK s0corrupt).2.calls = s0corrupt.calls :=
  corrupt_artifact_not_reproduced envOK s0corrupt rawSample rfl rfl

/-! ### C3: producer failure leaves earlier tiers persisted, failing tier absent -/

/-- C3: when the producer of a stage raises, the run terminates with exactly
that stage's error (the future stores it as the job's terminal failure),
every tier artifact written by earlier stages remains persisted, and no
artifact — partial or otherwise — is persisted for the failing tier.  One
conjunct per failing producer: (1) repo resolution, (2) the issues query and
(3) the stargazers query on a metadata-tier miss, (4) cloning and (5) remote
update of the mirror, (6) commit analysis both after a metadata cache hit
and (7) after a fresh metadata production (whose freshly written artifact
survives).  In each case the last status entry names the failing stage. -/
theorem fetch_producer_failure (e : Err) (raw : Json) (issues : Int → List Json)
    (sg : List (String × String)) (d : Dict) (r : Dict) (s0 : RunState) :
    ((fetch_repo_data { okEnv raw issues sg d with get_repo := .error e } s0).1
        = .error e
      ∧ (fetch_repo_data { okEnv raw issues sg d with get_repo := .error e } s0).2.fs.githubCache
        = s0.fs.githubCache
      ∧ (fetch_repo_data { okEnv raw issues sg d with get_repo := .error e } s0).2.fs.computedCache
        = s0.fs.computedCache
      ∧ (fetch_repo_data { okEnv raw issues sg d with get_repo := .error e } s0).2.fs.mirror
        = s0.fs.mirror)
  ∧ (s0.fs.githubCache = none →
      (fetch_repo_data { okEnv raw issues sg d with get_issues := fun _ => .error e } s0).1
        = .error e
      ∧ (fetch_repo_data { okEnv raw issues sg d with get_issues := fun _ => .error e } s0).2.fs.githubCache
        = none
      ∧ (fetch_repo_data { okEnv raw issues sg d with get_issues := fun _ => .error e } s0).2.fs.computedCache
        = s0.fs.computedCache
      ∧ (fetch_repo_data { okEnv raw issues sg d with get_issues := fun _ => .error e } s0).2.fs.mirror
        = s0.fs.mirror
      ∧ (logOf (fetch_repo_data { okEnv raw issues sg d with get_issues := fun _ => .error e } s0).2).getLast?
        = some "Fetching GitHub issues data")
  ∧ (s0.fs.githubCache = none →
      (fetch_repo_data { okEnv raw issues sg d with get_stargazers_with_dates := .error e } s0).1
        = .error e
      ∧ (fetch_repo_data { okEnv raw issues sg d with get_stargazers_with_dates := .error e } s0).2.fs.githubCache
        = none
      ∧ (fetch_repo_data { okEnv raw issues sg d with get_stargazers_with_dates := .error e } s0).2.fs.computedCache
        = s0.fs.computedCache
      ∧ (logOf (fetch_repo_data { okEnv raw issues sg d with get_stargazers_with_dates := .error e } s0).2).getLast?
        = some "Fetching GitHub stargazer data")
  ∧ (s0.fs.githubCache = some (.good r) → s0.fs.computedCache = none →
      s0.fs.mirror = false →
      (fetch_repo_data { okEnv raw issues sg d with clone_from := .error e } s0).1
        = .error e
      ∧ (fetch_repo_data { okEnv raw issues sg d with clone_from := .error e } s0).2.fs.githubCache
        = some (.good r)
      ∧ (fetch_repo_data { okEnv raw issues sg d with clone_from := .error e } s0).2.fs.computedCache
        = none
      ∧ (fetch_repo_data { okEnv raw issues sg d with clone_from := .error e } s0).2.fs.mirror
        = false
      ∧ (logOf (fetch_repo_data { okEnv raw issues sg d with clone_from := .error e } s0).2).getLast?
        = some "Cloning repo")
  ∧ (s0.fs.githubCache = some (.good r) → s0.fs.computedCache = none →
      s0.fs.mirror = true →
      (fetch_repo_data { okEnv raw issues sg d with remote_fetch := .error e } s0).1
        = .error e
      ∧ (fetch_repo_data { okEnv raw issues sg d with remote_fetch := .error e } s0).2.fs.githubCache
        = some (.good r)
      ∧ (fetch_repo_data { okEnv raw issues sg d with remote_fetch := .error e } s0).2.fs.computedCache
        = none
      ∧ (fetch_repo_data { okEnv raw issues sg d with remote_fetch := .error e } s0).2.fs.mirror
        = true
      ∧ (logOf (fetch_repo_data { okEnv raw issues sg d with remote_fetch := .error e } s0).2).getLast?
        = some "Fetching remotes from cached clone")
  ∧ (s0.fs.githubCache = some (.good r) → s0.fs.computedCache = none →
      s0.fs.mirror = true →
      (fetch_repo_data { okEnv raw issues sg d with commits := .error e } s0).1
        = .error e
      ∧ (fetch_repo_data { okEnv raw issues sg d with commits := .error e } s0).2.fs.githubCache
        = some (.good r)
      ∧ (fetch_repo_data { okEnv raw issues sg d with commits := .error e } s0).2.fs.computedCache
        = none
      ∧ (logOf (fetch_repo_data { okEnv raw issues sg d with commits := .error e } s0).2).getLast?
        = some "Analysing commits")
  ∧ (s0.fs.githubCache = none → s0.fs.computedCache = none →
      s0.fs.mirror = false →
      (fetch_repo_data { okEnv raw issues sg d with commits := .error e } s0).1
        = .error e
      ∧ (∃ rep, (fetch_repo_data { okEnv raw issues sg d with commits := .error e } s0).2.fs.githubCache
          = some (.good rep))
      ∧ (fetch_repo_data { okEnv raw issues sg d with commits := .error e } s0).2.fs.computedCache
        = none
      ∧ (logOf (fetch_repo_data { okEnv raw issues sg d with commits := .error e } s0).2).getLast?
        = some "Analysing commits") := by
  refine ⟨?_, ?_, ?_, ?_, ?_, ?_, ?_⟩
  · simp [fetch_repo_data, githubTier, computedTier, analyseStage, update_status,
      tick, okEnv, logOf]
  · intro hgh
    simp [fetch_repo_data, githubTier, computedTier, analyseStage, update_status,
      tick, okEnv, logOf, hgh]
  · intro hgh
    simp [fetch_repo_data, githubTier, computedTier, analyseStage, update_status,
      tick, okEnv, logOf, hgh]
  · intro hgh hcc hm
    simp [fetch_repo_data, githubTier, computedTier, analyseStage, update_status,
      tick, okEnv, logOf, hgh, hcc, hm]
  · intro hgh hcc hm
    simp [fetch_repo_data, githubTier, computedTier, analyseStage, update_status,
      tick, okEnv, logOf, hgh, hcc, hm]
  · intro hgh hcc hm
    simp [fetch_repo_data, githubTier, computedTier, analyseStage, update_status,
      tick, okEnv, logOf, hgh, hcc, hm]
  · intro hgh hcc hm
    simp [fetch_repo_data, githubTier, computedTier, analyseStage, update_status,
      tick, okEnv, logOf, hgh, hcc, hm]

/-- Witness for C3 at a concrete failing issues producer: the metadata tier
stays absent and the error surfaces. -/
theorem fetch_producer_failure_witness :
    (fetch_repo_data { okEnv rawSample (fun _ => []) [] [] with
        get_issues := fun _ => .error (.exc "rate limited") } s0nil).1
      = .error (.exc "rate limited")
    ∧ (fetch_repo_data { okEnv rawSample (fun _ => []) [] [] with
        get_issues := fun _ => .error (.exc "rate limited") } s0nil).2.fs.githubCache
      = none
    ∧ (fetch_repo_data { okEnv rawSample (fun _ => []) [] [] with
        get_issues := fun _ => .error (.exc "rate limited") } s0nil).2.fs.computedCache
      = s0nil.fs.computedCache
    ∧ (fetch_repo_data { okEnv rawSample (fun _ => []) [] [] with
        get_issues := fun _ => .error (.exc "rate limited") } s0nil).2.fs.mirror
      = s0nil.fs.mirror
    ∧ (logOf (fetch_repo_data { okEnv rawSample (fun _ => []) [] [] with
        get_issues := fun _ => .error (.exc "rate limited") } s0nil).2).getLast?
      = some "Fetching GitHub issues data" :=
  (fetch_producer_failure (.exc "rate limited") rawSample (fun _ => []) [] [] []
    s0nil).2.1 rfl

/-! ### C7: fixed stage order and cache-load stages -/

/-- C7: with all producers succeeding and no reached artifact corrupt, the
run succeeds; the status log equals the expected stage sequence for the
initial cache state, and every such expected sequence respects the fixed
pipeline order resolve-identity, fetch-remote-metadata, fetch-remote-issues,
fetch-remote-social-signal, obtain-or-update-local-mirror,
compute-derived-analysis (`stagePos` is strictly ascending along it); a tier
whose artifact already exists is logged as its distinct cache-load stage and
its loaded artifact is used in the final payload, and no producer of a
cached tier is invoked: on a GitHub-tier hit neither the API, issues nor
stargazer fetches run, and on a computed-tier hit neither clone, remote
update nor analysis runs. -/
theorem fetch_fixed_stage_order (raw : Json) (issues : Int → List Json)
    (sg : List (String × String)) (d : Dict) (s0 : RunState)
    (hgh : s0.fs.githubCache ≠ some .corrupt)
    (hcc : s0.fs.computedCache ≠ some .corrupt)
    (hcalls : s0.calls = noCalls) :
    (∀ fs2 : FS, ascending ((expectedLog fs2).map stagePos) = true)
    ∧ okB (fetch_repo_data (okEnv raw issues sg d) s0).1 = true
    ∧ (∀ rep, s0.fs.githubCache = some (.good rep) →
        logOf (fetch_repo_data (okEnv raw issues sg d) s0).2
            = expectedLog s0.fs
          ∧ "Load GitHub API data from ephemeral cache" ∈ expectedLog s0.fs
          ∧ dget (payloadOf (fetch_repo_data (okEnv raw issues sg d) s0).1) "github"
            = some (.obj rep))
    ∧ (∀ cd k2, s0.fs.computedCache = some (.good cd) → ¬ "github" = k2 →
        "Load commit from ephemeral cache" ∈ expectedLog s0.fs
          ∧ dget (payloadOf (fetch_repo_data (okEnv raw issues sg d) s0).1) k2
            = dget cd k2)
    ∧ logOf (fetch_repo_data (okEnv raw issues sg d) s0).2 = expectedLog s0.fs
    ∧ (fetch_repo_data (okEnv raw issues sg d) s0).2.calls.fetchedApi
        = s0.fs.githubCache.isNone
    ∧ (fetch_repo_data (okEnv raw issues sg d) s0).2.calls.fetchedStargazers
        = s0.fs.githubCache.isNone
    ∧ ((fetch_repo_data (okEnv raw issues sg d) s0).2.calls.issuesSince).isSome
        = s0.fs.githubCache.isNone
    ∧ (fetch_repo_data (okEnv raw issues sg d) s0).2.calls.cloned
        = (s0.fs.computedCache.isNone && !s0.fs.mirror)
    ∧ (fetch_repo_data (okEnv raw issues sg d) s0).2.calls.fetchedRemotes
        = (s0.fs.computedCache.isNone && s0.fs.mirror)
    ∧ (fetch_repo_data (okEnv raw issues sg d) s0).2.calls.analysed
        = s0.fs.computedCache.isNone := by
  refine ⟨?_, ?_⟩
  · intro fs2
    obtain ⟨sf2, gc2, cc2, m2⟩ := fs2
    cases gc2 <;> cases cc2 <;> cases m2 <;> simp [expectedLog] <;> decide
  cases hgc : s0.fs.githubCache with
  | some art =>
    cases art with
    | corrupt => exact absurd hgc hgh
    | good grep =>
      cases hc2 : s0.fs.computedCache with
      | some art2 =>
        cases art2 with
        | corrupt => exact absurd hc2 hcc
        | good crep =>
          cases hm : s0.fs.mirror <;>
            simp +contextual [fetch_repo_data, githubTier, computedTier,
              analyseStage, update_status, tick, okEnv, logOf, expectedLog,
              okB, payloadOf, dget_dset, hgc, hc2, hm, hcalls, noCalls]
      | none =>
        cases hm : s0.fs.mirror <;>
          simp +contextual [fetch_repo_data, githubTier, computedTier,
            analyseStage, update_status, tick, okEnv, logOf, expectedLog,
            okB, payloadOf, dget_dset, hgc, hc2, hm, hcalls, noCalls]
  | none =>
    cases hc2 : s0.fs.computedCache with
    | some art2 =>
      cases art2 with
      | corrupt => exact absurd hc2 hcc
      | good crep =>
        cases hm : s0.fs.mirror <;>
          simp +contextual [fetch_repo_data, githubTier, computedTier,
            analyseStage, update_status, tick, okEnv, logOf, expectedLog,
            okB, payloadOf, dget_dset, hgc, hc2, hm, hcalls, noCalls]
    | none =>
      cases hm : s0.fs.mirror <;>
        simp +contextual [fetch_repo_data, githubTier, computedTier,
          analyseStage, update_status, tick, okEnv, logOf, expectedLog,
          okB, payloadOf, dget_dset, hgc, hc2, hm, hcalls, noCalls]

/-- Witness for C7 on an empty cache: the logged stages equal the expected
all-producing sequence. -/
theorem fetch_fixed_stage_order_witness :
    logOf (fetch_repo_data
        (okEnv rawSample (fun _ => []) [] [("total_commits", Json.num 7)]) s0nil).2
      = expectedLog s0nil.fs :=
  (fetch_fixed_stage_order rawSample (fun _ => []) [] [("total_commits", .num 7)]
    s0nil (by simp [s0nil]) (by simp [s0nil]) rfl).2.2.2.2.1

/-! ### C9: a successful run's payload carries all sections -/

/-- C9: every successful pipeline run (all producers succeed; any
pre-existing GitHub artifact is one the system itself wrote, hence carries
its three sections) returns a payload whose `'github'` section contains the
repository metadata, the issues and the stargazers, merged alongside the
derived commit statistics: at every key other than `'github'` the payload
agrees with the analysis output (the loaded computed artifact or the fresh
`git_analysis.commits` result). -/
theorem fetch_success_payload_sections (raw : Json) (issues : Int → List Json)
    (sg : List (String × String)) (d : Dict) (s0 : RunState)
    (hg : ghWF s0.fs.githubCache)
    (hcc : s0.fs.computedCache ≠ some .corrupt) :
    okB (fetch_repo_data (okEnv raw issues sg d) s0).1 = true
    ∧ (∃ rep, dget (payloadOf (fetch_repo_data (okEnv raw issues sg d) s0).1) "github"
          = some (.obj rep)
        ∧ (dget rep "repo").isSome = true
        ∧ (dget rep "issues").isSome = true
        ∧ (dget rep "stargazers").isSome = true)
    ∧ (∃ cd, (s0.fs.computedCache = some (.good cd) ∨ cd = d)
        ∧ ∀ k2, ¬ "github" = k2 →
            dget (payloadOf (fetch_repo_data (okEnv raw issues sg d) s0).1) k2
              = dget cd k2) := by
  cases hgc : s0.fs.githubCache with
  | some art =>
    cases art with
    | corrupt => rw [hgc] at hg; exact absurd hg (by simp [ghWF])
    | good grep =>
      rw [hgc] at hg
      simp only [ghWF] at hg
      obtain ⟨h1, h2, h3⟩ := hg
      cases hc2 : s0.fs.computedCache with
      | some art2 =>
        cases art2 with
        | corrupt => exact absurd hc2 hcc
        | good crep =>
          cases hm : s0.fs.mirror <;>
            simp +contextual [fetch_repo_data, githubTier, computedTier,
              analyseStage, update_status, tick, okEnv, okB, payloadOf,
              dget_dset, hgc, hc2, hm, h1, h2, h3] <;>
            exact ⟨crep, Or.inl rfl, fun _ _ => rfl⟩
      | none =>
        cases hm : s0.fs.mirror <;>
          simp +contextual [fetch_repo_data, githubTier, computedTier,
            analyseStage, update_status, tick, okEnv, okB, payloadOf,
            dget_dset, hgc, hc2, hm, h1, h2, h3]
  | none =>
    cases hc2 : s0.fs.computedCache with
    | some art2 =>
      cases art2 with
      | corrupt => exact absurd hc2 hcc
      | good crep =>
        cases hm : s0.fs.mirror <;>
          simp +contextual [fetch_repo_data, githubTier, computedTier,
            analyseStage, update_status, tick, okEnv, okB, payloadOf,
            dget_dset, hgc, hc2, hm] <;>
          exact ⟨crep, Or.inl rfl, fun _ _ => rfl⟩
    | none =>
      cases hm : s0.fs.mirror <;>
        simp +contextual [fetch_repo_data, githubTier, computedTier,
          analyseStage, update_status, tick, okEnv, okB, payloadOf,
          dget_dset, hgc, hc2, hm]

/-- Witness for C9 on an empty cache: the payload's `'github'` section holds
all three sections. -/
theorem fetch_success_payload_sections_witness :
    ∃ rep, dget (payloadOf (fetch_repo_data
          (okEnv rawSample (fun _ => [Json.num 1]) [("2016-01-01", "alice")]
            [("total_commits", Json.num 7)]) s0nil).1) "github"
        = some (.obj rep)
      ∧ (dget rep "repo").isSome = true
      ∧ (dget rep "issues").isSome = true
      ∧ (dget rep "stargazers").isSome = true :=
  (fetch_success_payload_sections rawSample (fun _ => [Json.num 1])
    [("2016-01-01", "alice")] [("total_commits", .num 7)] s0nil trivial
    (by simp [s0nil])).2.1

/-! ### C10: the issues query window and limit -/

/-- C10: on a metadata-tier cache miss with succeeding producers, the run
queries issues with `since = utcnow - 30 days` (the recorded argument equals
the clock at the fetch minus `thirtyDays`) and persists at most 5 issues:
the stored `'issues'` section is exactly the first 5 results of that
query. -/
theorem fetch_issue_window_and_limit (raw : Json) (issues : Int → List Json)
    (sg : List (String × String)) (d : Dict) (s0 : RunState)
    (hmiss : s0.fs.githubCache = none) :
    (fetch_repo_data (okEnv raw issues sg d) s0).2.calls.issuesSince
      = some (s0.clock + 5 - thirtyDays)
    ∧ ((issues (s0.clock + 5 - thirtyDays)).take 5).length ≤ 5
    ∧ ∃ rep, (fetch_repo_data (okEnv raw issues sg d) s0).2.fs.githubCache
          = some (.good rep)
        ∧ dget rep "issues"
          = some (.arr ((issues (s0.clock + 5 - thirtyDays)).take 5)) := by
  have harith : s0.clock + 1 + 1 + 1 + 1 + 1 = s0.clock + 5 := by omega
  have hlen : ((issues (s0.clock + 5 - thirtyDays)).take 5).length ≤ 5 :=
    List.length_take_le 5 _
  cases hc2 : s0.fs.computedCache with
  | some art2 =>
    cases art2 <;> cases hm : s0.fs.mirror <;>
      simp +contextual [fetch_repo_data, githubTier, computedTier,
        analyseStage, update_status, tick, okEnv, dget_dset, hmiss, hc2, hm,
        harith, hlen]
  | none =>
    cases hm : s0.fs.mirror <;>
      simp +contextual [fetch_repo_data, githubTier, computedTier,
        analyseStage, update_status, tick, okEnv, dget_dset, hmiss, hc2, hm,
        harith, hlen]

/-- Witness for C10 on an empty cache with a seven-element issues result:
only the first five are persisted and the recorded window is 30 days. -/
theorem fetch_issue_window_and_limit_witness :
    (fetch_repo_data (okEnv rawSample
        (fun _ => [.num 1, .num 2, .num 3, .num 4, .num 5, .num 6, .num 7]) [] [])
        s0nil).2.calls.issuesSince = some (s0nil.clock + 5 - thirtyDays)
    ∧ (((fun _ => [Json.num 1, .num 2, .num 3, .num 4, .num 5, .num 6, .num 7])
        (s0nil.clock + 5 - thirtyDays) : List Json).take 5).length ≤ 5
    ∧ ∃ rep, (fetch_repo_data (okEnv rawSample
          (fun _ => [.num 1, .num 2, .num 3, .num 4, .num 5, .num 6, .num 7]) [] [])
          s0nil).2.fs.githubCache = some (.good rep)
        ∧ dget rep "issues"
          = some (.arr (((fun _ => [Json.num 1, .num 2, .num 3, .num 4, .num 5,
              .num 6, .num 7]) (s0nil.clock + 5 - thirtyDays) : List Json).take 5)) :=
  fetch_issue_window_and_limit rawSample
    (fun _ => [.num 1, .num 2, .num 3, .num 4, .num 5, .num 6, .num 7]) [] [] s0nil rfl

end RepoHealth
